import Mathlib

/-!
Verification development for the solar export-control engine.

This file is a shallow embedding of the decision engine found in
`src/export_control.js` (the current Node-RED function node) and, where a
claim concerns it, of the legacy variant `src/unnamed/part_001`.

Modelling conventions:
* JS numbers carrying telemetry, thresholds and targets are embedded as `ℚ`
  (the arithmetic the formulas perform is exact on the inputs used here);
  epoch-millisecond times are `ℤ`.
* The Node-RED `global` context is passed explicitly: the debounce registry
  is a function `EMState → EMState → ℤ` (value `0` = no pending request,
  mirroring `global.get(...) || 0`), and the remaining persisted keys form
  the `Store` structure.
* `addPersistentLog` calls are modelled as the list of log entries emitted
  during the tick; the interpolated parts of log messages are abbreviated to
  their fixed prefixes, and the bounded persistent log array itself (append
  + truncate) is not needed by any claim and is not modelled.
* The `.sort(by Date.parse of the date)` step of the history updater is
  modelled by a stable insertion sort on the ISO `YYYY-MM-DD` date strings,
  whose chronological order coincides with their character-wise order.
-/

namespace SolarExport

/-- The five engine states of `STATES` in `export_control.js`. -/
inductive EMState
  | EXPORT_PRIORITY
  | BATTERY_STORAGE
  | LOAD_MANAGEMENT
  | SELF_CONSUME
  | SAFE_MODE
deriving DecidableEq, Repr

/-- String name of a state, as stored in `energy_management_state`. -/
def stateName : EMState → String
  | .EXPORT_PRIORITY => "EXPORT_PRIORITY"
  | .BATTERY_STORAGE => "BATTERY_STORAGE"
  | .LOAD_MANAGEMENT => "LOAD_MANAGEMENT"
  | .SELF_CONSUME => "SELF_CONSUME"
  | .SAFE_MODE => "SAFE_MODE"

/-- Inverse of `stateName`: the `STATES.includes` membership test of
`initializeStateIfNeeded`, returning the recognised state. -/
def parseState : String → Option EMState
  | "EXPORT_PRIORITY" => some .EXPORT_PRIORITY
  | "BATTERY_STORAGE" => some .BATTERY_STORAGE
  | "LOAD_MANAGEMENT" => some .LOAD_MANAGEMENT
  | "SELF_CONSUME" => some .SELF_CONSUME
  | "SAFE_MODE" => some .SAFE_MODE
  | _ => none

-- `CONFIG` of `src/export_control.js` (the fields the claims touch).
namespace CONFIG

def max_soc_threshold : ℚ := 99
def min_soc_threshold : ℚ := 35
def hws_power_rating : ℚ := 3000
def hws_soc_drop_threshold : ℚ := 2
def hws_generation_drop_threshold : ℚ := 1000
def hws_cooldown_period : ℤ := 10
def export_target_percentage : ℚ := 40
def battery_charging_threshold : ℚ := 50
def strong_charging_threshold : ℚ := 1000
def min_generation_for_export : ℚ := 500
def min_generation_to_stay_export : ℚ := 300
def evening_self_consume_soc_threshold : ℚ := 35
def state_change_debounce_time : ℤ := 5
def max_reasonable_soc : ℚ := 105
def min_reasonable_soc : ℚ := -5
def max_reasonable_power : ℚ := 50000
def significant_export_threshold : ℚ := 2000
def night_start_hour : ℕ := 20
def night_end_hour : ℕ := 6
def catchup_days : ℚ := 5

end CONFIG

/-- Model of `CONFIG.catchup_aggressiveness` of the legacy variant
`src/unnamed/part_001`. -/
def legacy_catchup_aggressiveness : ℚ := 0.75

/-- Model of `MONTHLY_EXPORT_TARGETS` (identical in both variants). -/
def MONTHLY_EXPORT_TARGETS : ℕ → Option ℚ
  | 1 => some 25.5
  | 2 => some 30.5
  | 3 => some 24.5
  | 4 => some 23.5
  | 5 => some 23.2
  | 6 => some 22.8
  | 7 => some 23.5
  | 8 => some 24.3
  | 9 => some 31.1
  | 10 => some 38.4
  | 11 => some 35.2
  | 12 => some 34.9
  | _ => none

/-- Log entry types appearing in `addPersistentLog` calls. -/
inductive LogType
  | STATE_CHANGE
  | BATTERY_PROTECTION
  | HWS_EVENT
  | HWS_STATUS
  | DEBOUNCE
  | DATA_PROTECTION
  | DAILY_SUMMARY
  | PERFORMANCE_ALERT
  | SYSTEM_INFO
  | SYSTEM
  | ERROR
deriving DecidableEq, Repr

/-- Log priorities of `addPersistentLog`. -/
inductive Priority
  | low
  | normal
  | high
  | critical
deriving DecidableEq, Repr

/-- One emitted log entry; `note` is the fixed prefix of the message. -/
structure LogEntry where
  type : LogType
  priority : Priority
  note : String
deriving DecidableEq, Repr

/-- The debounce registry: `state_change_request_{FROM}_to_{TO}` keys.
`reg f t = 0` means no pending request for the transition `f → t`. -/
def Reg : Type := EMState → EMState → ℤ

/-- Model of `global.set` of one registry key. -/
def setReg (r : Reg) (f t : EMState) (v : ℤ) : Reg :=
  fun a b => if a = f ∧ b = t then v else r a b

/-- Model of `state_change_debounce_time` converted to milliseconds. -/
def debounceMs : ℤ := CONFIG.state_change_debounce_time * 60 * 1000

/-- Result of `checkStateChangeDebounce`: the returned `allowed` flag, the
registry after the call, and the log entries it emitted. -/
structure DebounceResult where
  allowed : Bool
  reg : Reg
  logs : List LogEntry

/-- Model of `checkStateChangeDebounce(targetState, currentState, reason)`.
The registry key is `currentState_to_targetState`. -/
def checkStateChangeDebounce (now : ℤ) (reg : Reg)
    (targetState currentState : EMState) : DebounceResult :=
  if targetState = currentState then ⟨true, reg, []⟩
  else
    let lastRequestTime := reg currentState targetState
    if lastRequestTime = 0 then
      ⟨false, setReg reg currentState targetState now,
        [⟨.DEBOUNCE, .normal, "State change request started"⟩]⟩
    else if now - lastRequestTime ≥ debounceMs then
      ⟨true, setReg reg currentState targetState 0,
        [⟨.DEBOUNCE, .normal, "State change approved"⟩]⟩
    else ⟨false, reg, []⟩

/-- Model of `clearOtherStateChangeRequests(allowedTransition)`: zero every registry
key except the transition `f → t` that was just approved. -/
def clearOtherStateChangeRequests (reg : Reg) (f t : EMState) : Reg :=
  fun a b => if a = f ∧ b = t then reg a b else 0

/-- The `inputs` object assembled in the main execution block. -/
structure Inputs where
  dailyExport : ℚ
  targetExport : ℚ
  generation : ℚ
  gridPower : ℚ
  batterySoc : ℚ
  batteryPower : ℚ
  inverterMode : ℤ
deriving DecidableEq, Repr

/-- Model of `Math.abs` on the rationals (kept executable by cases rather than via
the lattice `abs`). -/
def absQ (x : ℚ) : ℚ := if x < 0 then -x else x

/-- Model of `getExcessGeneration(generation, gridPower)`. -/
def getExcessGeneration (generation gridPower : ℚ) : ℚ :=
  if gridPower < 0 then absQ gridPower else 0

/-- Model of `shouldResetToExportPriority(dailyExport, targetExport, batteryPower)`.
(Division on `ℚ` returns `0` for a zero divisor; the engine only calls this
with positive targets.) -/
def shouldResetToExportPriority (dailyExport targetExport batteryPower : ℚ) : Bool :=
  let exportPercentage := dailyExport / targetExport * 100
  let batteryCharging := decide (batteryPower > CONFIG.strong_charging_threshold)
  decide (exportPercentage < CONFIG.export_target_percentage) && batteryCharging

/-- Model of `isNightTime()`, with the local hour passed explicitly. -/
def isNightTime (hour : ℕ) : Bool :=
  if CONFIG.night_start_hour > CONFIG.night_end_hour then
    decide (hour ≥ CONFIG.night_start_hour) || decide (hour < CONFIG.night_end_hour)
  else
    decide (hour ≥ CONFIG.night_start_hour) && decide (hour < CONFIG.night_end_hour)

/-- Model of `isBatteryProtectionActive(batterySoc, batteryPower, exportTargetReached)`
(the third argument is unused in the source as well). -/
def isBatteryProtectionActive (batterySoc batteryPower : ℚ)
    (exportTargetReached : Bool) : Bool :=
  let socCritical := decide (batterySoc ≤ CONFIG.min_soc_threshold)
  let batteryDischarging := decide (batteryPower < 0)
  let _ := exportTargetReached
  socCritical && batteryDischarging

/-- Model of `validateInputData(inputs)`: the list of validation error messages
(interpolated values abbreviated away). -/
def validateInputData (inputs : Inputs) : List String :=
  (if inputs.batterySoc < CONFIG.min_reasonable_soc ∨
      inputs.batterySoc > CONFIG.max_reasonable_soc then
    ["Battery SOC outside reasonable bounds"] else []) ++
  (if absQ inputs.generation > CONFIG.max_reasonable_power then
    ["Generation outside reasonable bounds"] else []) ++
  (if absQ inputs.gridPower > CONFIG.max_reasonable_power then
    ["Grid power outside reasonable bounds"] else []) ++
  (if absQ inputs.batteryPower > CONFIG.max_reasonable_power then
    ["Battery power outside reasonable bounds"] else []) ++
  (if inputs.dailyExport < 0 ∨ inputs.dailyExport > 200 then
    ["Daily export outside reasonable bounds"] else [])

/-- Result of `processStateTransition`: next state, registry after the call,
and the log entries emitted during it. -/
structure TransitionResult where
  nextState : EMState
  reg : Reg
  logs : List LogEntry

/-- Model of `processStateTransition(currentState, inputs)` of `export_control.js`,
with the ambient context (`Date.now()`, local hour, `hws_status`, debounce
registry) passed explicitly. -/
def processStateTransition (now : ℤ) (hour : ℕ) (hwsStatus : Bool)
    (reg : Reg) (currentState : EMState) (inputs : Inputs) : TransitionResult :=
  let excessGeneration := getExcessGeneration inputs.generation inputs.gridPower
  let exportTargetReached := decide (inputs.dailyExport ≥ inputs.targetExport)
  let batteryFull := decide (inputs.batterySoc ≥ CONFIG.max_soc_threshold)
  let batteryLow := decide (inputs.batterySoc ≤ CONFIG.min_soc_threshold)
  let batteryCharging := decide (inputs.batteryPower > 0)
  -- PRIORITY 0: stale generation data protection
  let exportingSignificantly :=
    decide (inputs.gridPower < -CONFIG.significant_export_threshold)
  let generationSuspicious := decide (inputs.generation < 500)
  let generationDataStale := exportingSignificantly && generationSuspicious
  if decide (currentState = .EXPORT_PRIORITY) && generationDataStale then
    ⟨currentState, reg,
      [⟨.DATA_PROTECTION, .high, "Generation data appears stale"⟩]⟩
  else
    -- PRIORITY 1: battery protection override
    let batteryProtectionActive :=
      isBatteryProtectionActive inputs.batterySoc inputs.batteryPower
        exportTargetReached
    if batteryProtectionActive then
      if currentState ≠ .EXPORT_PRIORITY then
        ⟨.EXPORT_PRIORITY, reg,
          [⟨.BATTERY_PROTECTION, .critical,
            "Battery protection override triggered"⟩]⟩
      else ⟨currentState, reg, []⟩
    -- PRIORITY 2: normal state transition logic
    else if !exportTargetReached && !isNightTime hour &&
        (decide (inputs.generation ≥ CONFIG.min_generation_for_export) ||
         decide (inputs.batteryPower ≥ CONFIG.strong_charging_threshold)) then
      if currentState ≠ .EXPORT_PRIORITY then
        let dc := checkStateChangeDebounce now reg .EXPORT_PRIORITY currentState
        if dc.allowed then
          ⟨.EXPORT_PRIORITY,
            clearOtherStateChangeRequests dc.reg currentState .EXPORT_PRIORITY,
            dc.logs⟩
        else ⟨currentState, dc.reg, dc.logs⟩
      else ⟨currentState, reg, []⟩
    else if shouldResetToExportPriority inputs.dailyExport inputs.targetExport
          inputs.batteryPower && !isNightTime hour &&
        (decide (inputs.generation ≥ CONFIG.min_generation_for_export) ||
         decide (inputs.batteryPower ≥ CONFIG.strong_charging_threshold)) then
      let dc := checkStateChangeDebounce now reg .EXPORT_PRIORITY currentState
      if dc.allowed then
        ⟨.EXPORT_PRIORITY,
          clearOtherStateChangeRequests dc.reg currentState .EXPORT_PRIORITY,
          dc.logs⟩
      else ⟨currentState, dc.reg, dc.logs⟩
    else if decide (currentState = .EXPORT_PRIORITY) && !isNightTime hour &&
        decide (inputs.generation < CONFIG.min_generation_to_stay_export) &&
        decide (inputs.batteryPower < CONFIG.battery_charging_threshold) &&
        decide (inputs.batterySoc > CONFIG.min_soc_threshold) then
      let dc := checkStateChangeDebounce now reg .SELF_CONSUME currentState
      if dc.allowed then
        ⟨.SELF_CONSUME,
          clearOtherStateChangeRequests dc.reg currentState .SELF_CONSUME,
          dc.logs⟩
      else ⟨currentState, dc.reg, dc.logs⟩
    else
      match currentState with
      | .EXPORT_PRIORITY =>
        if exportTargetReached then ⟨.BATTERY_STORAGE, reg, []⟩
        else if decide (inputs.generation < CONFIG.min_generation_for_export) &&
            decide (inputs.batterySoc > CONFIG.evening_self_consume_soc_threshold) &&
            !batteryCharging then
          ⟨.SELF_CONSUME, reg, []⟩
        else ⟨currentState, reg, []⟩
      | .BATTERY_STORAGE =>
        if batteryFull && decide (excessGeneration > CONFIG.hws_power_rating * 0.8) then
          ⟨.LOAD_MANAGEMENT, reg, []⟩
        else if batteryLow && !batteryCharging then ⟨.SELF_CONSUME, reg, []⟩
        else if decide (inputs.batteryPower < 0) then ⟨.SELF_CONSUME, reg, []⟩
        else ⟨currentState, reg, []⟩
      | .LOAD_MANAGEMENT =>
        let socDropped :=
          decide (inputs.batterySoc ≤
            CONFIG.max_soc_threshold - CONFIG.hws_soc_drop_threshold)
        let generationDropped :=
          decide (inputs.generation < CONFIG.hws_generation_drop_threshold)
        if (socDropped || generationDropped) && hwsStatus then
          if batteryLow && !batteryCharging then ⟨.SELF_CONSUME, reg, []⟩
          else ⟨.BATTERY_STORAGE, reg, []⟩
        else ⟨currentState, reg, []⟩
      | .SELF_CONSUME =>
        if batteryCharging && !exportTargetReached then
          ⟨.EXPORT_PRIORITY, reg, []⟩
        else if batteryCharging && exportTargetReached then
          ⟨.BATTERY_STORAGE, reg, []⟩
        else ⟨currentState, reg, []⟩
      | .SAFE_MODE =>
        -- the `default` arm of the source switch (reachable for SAFE_MODE)
        ⟨.SAFE_MODE, reg, [⟨.ERROR, .critical, "Unknown state detected"⟩]⟩

/-- The `actions` object of the output command record. -/
structure Actions where
  set_ess_mode : Bool
  grid_setpoint : Option ℤ
  enable_hws : Bool
  inverter_mode : ℤ
deriving DecidableEq, Repr

/-- The `status` object of the normal output command record. -/
structure Status where
  export_target : ℚ
  daily_export : ℚ
  target_reached : Bool
  battery_soc : ℚ
  excess_generation : ℚ
  battery_power : ℚ
  battery_protection_active : Bool
deriving DecidableEq, Repr

/-- The emitted command record (`msg.payload`). The validation-failure and
disabled payloads carry no `Status`; validation errors live in
`validation_errors`. -/
structure Output where
  current_state : String
  actions : Actions
  status : Option Status
  validation_errors : List String
deriving DecidableEq, Repr

/-- Model of `getHWSCooldownStatus()`. -/
def getHWSCooldownStatus (now hwsLastOff : ℤ) : Bool :=
  decide (now - hwsLastOff > CONFIG.hws_cooldown_period * 60 * 1000)

/-- Result of `generateOutput`: the command record, the log entries it
emitted, and the `hws_last_off_time` write (if any). -/
structure GenResult where
  output : Output
  logs : List LogEntry
  hwsLastOffUpdate : Option ℤ

/-- Model of `generateOutput(state, inputs, stateReason)` of `export_control.js`,
with `Date.now()`, `hws_status` and `hws_last_off_time` passed explicitly. -/
def generateOutput (now : ℤ) (hwsStatus : Bool) (hwsLastOff : ℤ)
    (state : EMState) (inputs : Inputs) : GenResult :=
  let targetReached := decide (inputs.dailyExport ≥ inputs.targetExport)
  let baseStatus : Status :=
    { export_target := inputs.targetExport
      daily_export := inputs.dailyExport
      target_reached := targetReached
      battery_soc := inputs.batterySoc
      excess_generation := getExcessGeneration inputs.generation inputs.gridPower
      battery_power := inputs.batteryPower
      battery_protection_active :=
        isBatteryProtectionActive inputs.batterySoc inputs.batteryPower
          targetReached }
  match state with
  | .EXPORT_PRIORITY =>
    ⟨⟨stateName state, ⟨false, none, false, 3⟩, some baseStatus, []⟩, [], none⟩
  | .BATTERY_STORAGE =>
    ⟨⟨stateName state, ⟨true, some 0, false, 3⟩, some baseStatus, []⟩, [], none⟩
  | .LOAD_MANAGEMENT =>
    let socDropped :=
      decide (inputs.batterySoc ≤
        CONFIG.max_soc_threshold - CONFIG.hws_soc_drop_threshold)
    let generationDropped :=
      decide (inputs.generation < CONFIG.hws_generation_drop_threshold)
    let cooldownExpired := getHWSCooldownStatus now hwsLastOff
    if !hwsStatus && cooldownExpired && !socDropped && !generationDropped then
      ⟨⟨stateName state, ⟨true, some 0, true, 3⟩, some baseStatus, []⟩,
        [⟨.HWS_EVENT, .low, "HWS TURNED_ON"⟩], none⟩
    else if hwsStatus && (socDropped || generationDropped) then
      ⟨⟨stateName state, ⟨true, some 0, false, 3⟩, some baseStatus, []⟩,
        [⟨.HWS_EVENT, .normal, "HWS TURNED_OFF"⟩], some now⟩
    else
      ⟨⟨stateName state, ⟨true, some 0, hwsStatus, 3⟩, some baseStatus, []⟩,
        if hwsStatus then [⟨.HWS_STATUS, .low, "HWS remains ON"⟩] else [],
        none⟩
  | .SELF_CONSUME =>
    ⟨⟨stateName state, ⟨true, some 0, false, 3⟩, some baseStatus, []⟩, [], none⟩
  | .SAFE_MODE =>
    ⟨⟨stateName state, ⟨false, none, false, 4⟩, some baseStatus, []⟩,
      [⟨.ERROR, .critical, "System operating in safe mode"⟩], none⟩

/-- One entry of the `export_history_30days` array (`export` and `target`
renamed to dodge Lean keywords). -/
structure DailyRecord where
  date : String
  export_kwh : ℚ
  target_kwh : ℚ
  timestamp : String
deriving DecidableEq, Repr

/-- Character-wise comparison of date strings: chronological order of ISO
`YYYY-MM-DD` strings, the key the source comparator obtains via
`new Date(date).getTime()`. -/
def strLeB : List Char → List Char → Bool
  | [], _ => true
  | _ :: _, [] => false
  | x :: xs, y :: ys =>
    if x.toNat < y.toNat then true
    else if y.toNat < x.toNat then false
    else strLeB xs ys

/-- Date-string order used to sort the history. -/
def dateLe (a b : String) : Bool := strLeB a.data b.data

/-- Insert a record into a date-sorted list (stable). -/
def insertByDate (r : DailyRecord) : List DailyRecord → List DailyRecord
  | [] => [r]
  | x :: xs =>
    if dateLe x.date r.date then x :: insertByDate r xs else r :: x :: xs

/-- The `.sort((a, b) => Date.parse(a.date) - Date.parse(b.date))` step. -/
def sortByDate : List DailyRecord → List DailyRecord
  | [] => []
  | x :: xs => insertByDate x (sortByDate xs)

/-- Model of `updateDailyExportHistory(dailyExport, targetExport)`: returns the
history after the call and the log entries emitted.  The `findIndex ≥ 0`
skip guard, the push of today's entry, the sort by date, and the
`slice(-30)` window are all modelled; `today`/`isoNow` are the local date
helpers passed explicitly. -/
def updateDailyExportHistory (today isoNow : String)
    (exportHistory : List DailyRecord) (dailyExport targetExport : ℚ) :
    List DailyRecord × List LogEntry :=
  if exportHistory.any (fun e => e.date = today) then
    (exportHistory, [])
  else
    let todayEntry : DailyRecord := ⟨today, dailyExport, targetExport, isoNow⟩
    let sorted := sortByDate (exportHistory ++ [todayEntry])
    (sorted.drop (sorted.length - 30),
      [⟨.SYSTEM_INFO, .low, "Export history updated"⟩])

/-- The persisted `target_calculation` blob (fields the claims touch;
`performance_ratio` is named `perf` here). -/
structure TargetCalc where
  base_target : ℚ
  adjusted_target : ℚ
  static_monthly_target : ℚ
  perf : ℚ
  method : String
  rolling_days : ℕ
  rolling_export_total : ℚ
  adjustment_reason : String
deriving DecidableEq, Repr

/-- Result of `getCurrentMonthTarget`: the returned target, the
`target_calculation` cache write performed by the call (`none` = no write),
and the log entries emitted. -/
structure TargetResult where
  target : ℚ
  cacheWrite : Option TargetCalc
  logs : List LogEntry
deriving Repr

/-- Model of `getCurrentMonthTarget()` of `src/export_control.js`, with the current
month and the history passed explicitly.  For any non-empty history the
adaptive path runs and the cache is written. -/
def getCurrentMonthTarget (month : ℕ) (exportHistory : List DailyRecord) :
    TargetResult :=
  if exportHistory.length > 0 then
    let daysToUse := min exportHistory.length 30
    let recentHistory := exportHistory.drop (exportHistory.length - daysToUse)
    let totalExport := (recentHistory.map (fun d => d.export_kwh)).sum
    let rollingAverage := totalExport / (daysToUse : ℚ)
    let staticMonthlyTarget := (MONTHLY_EXPORT_TARGETS month).getD 25.0
    let performance := rollingAverage / staticMonthlyTarget
    if performance < 0.9 then
      let totalDeficit := staticMonthlyTarget * (daysToUse : ℚ) - totalExport
      let catchupPerDay := totalDeficit / CONFIG.catchup_days
      let adjustedTarget :=
        min (staticMonthlyTarget + catchupPerDay) (staticMonthlyTarget * 2.0)
      ⟨adjustedTarget,
        some ⟨rollingAverage, adjustedTarget, staticMonthlyTarget, performance,
          "rolling_30day", daysToUse, totalExport, "under_performing"⟩,
        [⟨.PERFORMANCE_ALERT, .high, "UNDER_PERFORMING"⟩]⟩
    else if performance > 1.1 then
      let excess := rollingAverage - staticMonthlyTarget
      let coolDownReduction := excess * 0.3
      let adjustedTarget :=
        max (staticMonthlyTarget - coolDownReduction) (staticMonthlyTarget * 0.8)
      ⟨adjustedTarget,
        some ⟨rollingAverage, adjustedTarget, staticMonthlyTarget, performance,
          "rolling_30day", daysToUse, totalExport, "over_performing"⟩,
        [⟨.PERFORMANCE_ALERT, .high, "OVER_PERFORMING"⟩]⟩
    else
      ⟨staticMonthlyTarget,
        some ⟨rollingAverage, staticMonthlyTarget, staticMonthlyTarget,
          performance, "rolling_30day", daysToUse, totalExport, "normal"⟩,
        []⟩
  else
    ⟨(MONTHLY_EXPORT_TARGETS month).getD 25.0, none,
      [⟨.SYSTEM_INFO, .low, "Using static monthly target"⟩]⟩

/-- Model of `getCurrentMonthTarget()` of the legacy variant `src/unnamed/part_001`:
reuses a valid cached result when present, requires at least 3 history
entries for the adaptive path, and uses the
`shortfall × catchup_aggressiveness` formula capped at 1.5×. -/
def legacyGetCurrentMonthTarget (month : ℕ) (cache : Option TargetCalc)
    (exportHistory : List DailyRecord) : TargetResult :=
  let cached : Option ℚ :=
    match cache with
    | some tc =>
      if tc.method = "rolling_30day" ∧ tc.adjusted_target ≠ 0 then
        some tc.adjusted_target
      else none
    | none => none
  match cached with
  | some t => ⟨t, none, []⟩
  | none =>
    if exportHistory.length > 0 ∧ min exportHistory.length 30 ≥ 3 then
      let daysToUse := min exportHistory.length 30
      let recentHistory := exportHistory.drop (exportHistory.length - daysToUse)
      let totalExport := (recentHistory.map (fun d => d.export_kwh)).sum
      let rollingAverage := totalExport / (daysToUse : ℚ)
      let staticMonthlyTarget := (MONTHLY_EXPORT_TARGETS month).getD 25.0
      let performance := rollingAverage / staticMonthlyTarget
      if performance < 0.9 then
        let shortfall := staticMonthlyTarget - rollingAverage
        let catchUpBoost := shortfall * legacy_catchup_aggressiveness
        let adjustedTarget :=
          min (staticMonthlyTarget + catchUpBoost) (staticMonthlyTarget * 1.5)
        ⟨adjustedTarget,
          some ⟨rollingAverage, adjustedTarget, staticMonthlyTarget,
            performance, "rolling_30day", daysToUse, totalExport,
            "under_performing"⟩, []⟩
      else if performance > 1.1 then
        let excess := rollingAverage - staticMonthlyTarget
        let coolDownReduction := excess * 0.3
        let adjustedTarget :=
          max (staticMonthlyTarget - coolDownReduction)
            (staticMonthlyTarget * 0.8)
        ⟨adjustedTarget,
          some ⟨rollingAverage, adjustedTarget, staticMonthlyTarget,
            performance, "rolling_30day", daysToUse, totalExport,
            "over_performing"⟩, []⟩
      else
        ⟨staticMonthlyTarget,
          some ⟨rollingAverage, staticMonthlyTarget, staticMonthlyTarget,
            performance, "rolling_30day", daysToUse, totalExport, "normal"⟩,
          []⟩
    else
      ⟨(MONTHLY_EXPORT_TARGETS month).getD 25.0, none, []⟩

/-- Model of `initializeStateIfNeeded()`: the recognised current state, the stored
string after the call, and the log entries emitted. -/
def initializeStateIfNeeded (stored : Option String) :
    EMState × Option String × List LogEntry :=
  match stored with
  | some s =>
    match parseState s with
    | some st => (st, some s, [])
    | none =>
      (.EXPORT_PRIORITY, some "EXPORT_PRIORITY",
        [⟨.SYSTEM, .high, "Energy management system initialized"⟩])
  | none =>
    (.EXPORT_PRIORITY, some "EXPORT_PRIORITY",
      [⟨.SYSTEM, .high, "Energy management system initialized"⟩])

/-- Model of `logStateChange(fromState, toState, ...)`: priority is high when either
end is SAFE_MODE. -/
def logStateChangeEntry (fromState toState : EMState) : LogEntry :=
  ⟨.STATE_CHANGE,
    if fromState = .SAFE_MODE ∨ toState = .SAFE_MODE then .high else .normal,
    "STATE_CHANGE"⟩

/-- Model of `logDailySummary(...)`: emitted entries and the stored
`last_daily_summary_date` after the call. -/
def logDailySummary (hour : ℕ) (today : String) (lastSummaryDate : String) :
    List LogEntry × String :=
  if hour ≥ 23 ∨ hour ≤ 1 then
    if lastSummaryDate ≠ today then
      ([⟨.DAILY_SUMMARY, .normal, "Daily Summary"⟩], today)
    else ([], lastSummaryDate)
  else ([], lastSummaryDate)

/-- The persisted global context keys the engine reads and writes. -/
structure Store where
  state : Option String
  exportHistory : List DailyRecord
  targetCalc : Option TargetCalc
  registry : Reg
  hwsStatus : Bool
  hwsLastOff : ℤ
  lastSummaryDate : String

/-- Ambient data of one tick: `Date.now()`, local hour, local month, local
date string and local ISO timestamp. -/
structure Env where
  now : ℤ
  hour : ℕ
  month : ℕ
  today : String
  isoNow : String

/-- The raw telemetry globals read at the top of the main execution block
(after their `|| default` fallbacks). -/
structure RawInputs where
  export_daily : ℚ
  grid_power : ℚ
  generation : ℚ
  victron_soc : ℚ
  battery_power : ℚ
  victron_mode : ℤ
deriving DecidableEq, Repr

/-- The `inputs` object assembled by the main execution block for this tick:
`export_daily` is converted from Wh to kWh and the target comes from
`getCurrentMonthTarget`. -/
def tickInputs (env : Env) (st : Store) (raw : RawInputs) : Inputs :=
  { dailyExport := raw.export_daily / 1000
    targetExport := (getCurrentMonthTarget env.month st.exportHistory).target
    generation := raw.generation
    gridPower := raw.grid_power
    batterySoc := raw.victron_soc
    batteryPower := raw.battery_power
    inverterMode := raw.victron_mode }

/-- The validation-failure payload of the main execution block
(`current_state: STATES.SAFE_MODE`, ESS off, inverter mode 3). -/
def validationPayload (errs : List String) : Output :=
  { current_state := "SAFE_MODE"
    actions := ⟨false, none, false, 3⟩
    status := none
    validation_errors := errs }

/-- Result of one tick of the main execution block: the emitted payload
(`none` = the function returned without a message), the store after the
tick, and the log entries emitted. -/
structure TickResult where
  payload : Option Output
  store : Store
  logs : List LogEntry

/-- The main execution block of `src/export_control.js` (the non-throwing
path).  When `energy_management_enabled === false` the source executes a
bare `return;`: no payload is emitted and nothing is written. -/
def mainTick (env : Env) (enabled : Option Bool) (st : Store)
    (raw : RawInputs) : TickResult :=
  if enabled = some false then ⟨none, st, []⟩
  else
    let init := initializeStateIfNeeded st.state
    let currentState := init.1
    let storedState := init.2.1
    let initLogs := init.2.2
    let tr := getCurrentMonthTarget env.month st.exportHistory
    let targetCalc' := match tr.cacheWrite with
      | some c => some c
      | none => st.targetCalc
    let inputs := tickInputs env st raw
    let hist := updateDailyExportHistory env.today env.isoNow st.exportHistory
      inputs.dailyExport inputs.targetExport
    let validationErrors := validateInputData inputs
    if validationErrors ≠ [] then
      ⟨some (validationPayload validationErrors),
        { st with
            state := storedState
            exportHistory := hist.1
            targetCalc := targetCalc' },
        initLogs ++ tr.logs ++ hist.2 ++
          [⟨.ERROR, .high, "Data validation failed"⟩]⟩
    else
      let ptr := processStateTransition env.now env.hour st.hwsStatus
        st.registry currentState inputs
      let changeLogs := if ptr.nextState ≠ currentState then
          [logStateChangeEntry currentState ptr.nextState] else []
      let state' := if ptr.nextState ≠ currentState then
          some (stateName ptr.nextState) else storedState
      let summary := logDailySummary env.hour env.today st.lastSummaryDate
      let gr := generateOutput env.now st.hwsStatus st.hwsLastOff ptr.nextState
        inputs
      ⟨some gr.output,
        { state := state'
          exportHistory := hist.1
          targetCalc := targetCalc'
          registry := ptr.reg
          hwsStatus := gr.output.actions.enable_hws
          hwsLastOff := match gr.hwsLastOffUpdate with
            | some t => t
            | none => st.hwsLastOff
          lastSummaryDate := summary.2 },
        initLogs ++ tr.logs ++ hist.2 ++ ptr.logs ++ changeLogs ++
          summary.1 ++ gr.logs⟩

/-- The disabled payload of the legacy variant `src/unnamed/part_001`
(lines 716-734): `current_state: 'DISABLED'`, ESS off, no setpoint, HWS
off, inverter mode 3. -/
def legacyDisabledPayload : Output :=
  { current_state := "DISABLED"
    actions := ⟨false, none, false, 3⟩
    status := none
    validation_errors := [] }

/-- The `energy_management_enabled === false` gate of the legacy variant,
which returns the DISABLED payload before any store access; `none` means
execution continues past the gate.  The store is untouched either way. -/
def legacyEnabledGate (enabled : Option Bool) (st : Store) :
    Option (Output × Store) :=
  if enabled = some false then some (legacyDisabledPayload, st) else none

/-- Registry-entry evolution for one fixed transition under repeated
`checkStateChangeDebounce` calls: the `state_change_request` value after a
call at time `now` when it was `entry` before. -/
def debounceStep (entry now : ℤ) : ℤ :=
  if entry = 0 then now
  else if now - entry ≥ debounceMs then 0
  else entry

/-- The registry entry after a sequence of calls at the given times,
starting from an empty entry. -/
def debounceRun (ts : List ℤ) : ℤ := ts.foldl debounceStep 0

/-- A debounce registry holding one pending request
SELF_CONSUME → EXPORT_PRIORITY first requested at epoch-ms 1000. -/
def pendingReg : Reg := fun f t =>
  if f = EMState.SELF_CONSUME ∧ t = EMState.EXPORT_PRIORITY then 1000 else 0

/-- A store with a valid persisted state, empty history and no pending
debounce requests. -/
def emptyStore : Store :=
  ⟨some "EXPORT_PRIORITY", [], none, fun _ _ => 0, false, 0, ""⟩

/-- The adjusted-target formula as worded by the claim (spec side of the
refinement): mean over the last N = min(len, 30) entries, ratio against the
static monthly target (fallback 25.0), catch-up
`static + (static·N − sum)/catchup_days` capped at `2·static` when
p < 0.9, cool-down `static − 0.3·(mean − static)` floored at `0.8·static`
when p > 1.1, else the static target. -/
def claimAdjustedTarget (month : ℕ) (h : List DailyRecord) : ℚ :=
  let N := min h.length 30
  let exportSum := ((h.drop (h.length - N)).map (fun d => d.export_kwh)).sum
  let mean := exportSum / (N : ℚ)
  let staticT := (MONTHLY_EXPORT_TARGETS month).getD 25.0
  let p := mean / staticT
  if p < 0.9 then
    min (staticT + (staticT * (N : ℚ) - exportSum) / CONFIG.catchup_days)
      (2 * staticT)
  else if p > 1.1 then
    max (staticT - 0.3 * (mean - staticT)) (0.8 * staticT)
  else staticT

/-- A July midday tick environment. -/
def julyEnv : Env := ⟨0, 12, 7, "2025-07-02", "2025-07-02T12:00:00+10:00"⟩
/-- Raw telemetry whose soc (200 %) violates the validation bounds. -/
def invalidSocRaw : RawInputs := ⟨0, 0, 0, 200, 0, 3⟩
/-- In-bounds raw telemetry. -/
def nominalRaw : RawInputs := ⟨0, 0, 0, 50, 0, 3⟩
/-- A single-day history: one July day with 0 kWh exported. -/
def oneDayHist : List DailyRecord := [⟨"2025-07-01", 0, 23, "t"⟩]

/-! ### Helper lemmas -/

theorem parseState_stateName (s : EMState) : parseState (stateName s) = some s := by
  cases s <;> rfl

theorem initializeStateIfNeeded_valid (s : EMState) :
    initializeStateIfNeeded (some (stateName s)) = (s, some (stateName s), []) := by
  cases s <;> rfl

theorem processStateTransition_batteryBranch
    (now : ℤ) (hour : ℕ) (hws : Bool) (reg : Reg) (s : EMState) (inp : Inputs)
    (hs : s ≠ EMState.EXPORT_PRIORITY)
    (hsoc : inp.batterySoc ≤ CONFIG.min_soc_threshold)
    (hpw : inp.batteryPower < 0) :
    processStateTransition now hour hws reg s inp =
      ⟨.EXPORT_PRIORITY, reg,
        [⟨.BATTERY_PROTECTION, .critical,
          "Battery protection override triggered"⟩]⟩ := by
  simp [processStateTransition, isBatteryProtectionActive, hs, hsoc, hpw]

theorem processStateTransition_rule3_firstRequest
    (now : ℤ) (hour : ℕ) (hws : Bool) (reg : Reg) (s : EMState) (inp : Inputs)
    (hs : s ≠ EMState.EXPORT_PRIORITY)
    (hnr : ¬(inp.dailyExport ≥ inp.targetExport))
    (hday : isNightTime hour = false)
    (hgen : inp.generation ≥ CONFIG.min_generation_for_export ∨
      inp.batteryPower ≥ CONFIG.strong_charging_threshold)
    (hnp : ¬(inp.batterySoc ≤ CONFIG.min_soc_threshold ∧ inp.batteryPower < 0))
    (hreg : reg s .EXPORT_PRIORITY = 0) :
    processStateTransition now hour hws reg s inp =
      ⟨s, setReg reg s .EXPORT_PRIORITY now,
        [⟨.DEBOUNCE, .normal, "State change request started"⟩]⟩ := by
  have hs2 : EMState.EXPORT_PRIORITY ≠ s := Ne.symm hs
  rcases hgen with hg | hg <;>
    simp [processStateTransition, isBatteryProtectionActive,
      checkStateChangeDebounce, hs, hs2, hnr, hday, hg, hnp, hreg]

theorem processStateTransition_rule3_approved
    (now : ℤ) (hour : ℕ) (hws : Bool) (reg : Reg) (s : EMState) (inp : Inputs)
    (hs : s ≠ EMState.EXPORT_PRIORITY)
    (hnr : ¬(inp.dailyExport ≥ inp.targetExport))
    (hday : isNightTime hour = false)
    (hgen : inp.generation ≥ CONFIG.min_generation_for_export ∨
      inp.batteryPower ≥ CONFIG.strong_charging_threshold)
    (hnp : ¬(inp.batterySoc ≤ CONFIG.min_soc_threshold ∧ inp.batteryPower < 0))
    (hreg : reg s .EXPORT_PRIORITY ≠ 0)
    (ht : now - reg s .EXPORT_PRIORITY ≥ debounceMs) :
    processStateTransition now hour hws reg s inp =
      ⟨.EXPORT_PRIORITY,
        clearOtherStateChangeRequests (setReg reg s .EXPORT_PRIORITY 0)
          s .EXPORT_PRIORITY,
        [⟨.DEBOUNCE, .normal, "State change approved"⟩]⟩ := by
  have hs2 : EMState.EXPORT_PRIORITY ≠ s := Ne.symm hs
  rcases hgen with hg | hg <;>
    simp [processStateTransition, isBatteryProtectionActive,
      checkStateChangeDebounce, hs, hs2, hnr, hday, hg, hnp, hreg, ht]

theorem processStateTransition_rule3_pending
    (now : ℤ) (hour : ℕ) (hws : Bool) (reg : Reg) (s : EMState) (inp : Inputs)
    (hs : s ≠ EMState.EXPORT_PRIORITY)
    (hnr : ¬(inp.dailyExport ≥ inp.targetExport))
    (hday : isNightTime hour = false)
    (hgen : inp.generation ≥ CONFIG.min_generation_for_export ∨
      inp.batteryPower ≥ CONFIG.strong_charging_threshold)
    (hnp : ¬(inp.batterySoc ≤ CONFIG.min_soc_threshold ∧ inp.batteryPower < 0))
    (hreg : reg s .EXPORT_PRIORITY ≠ 0)
    (ht : ¬(now - reg s .EXPORT_PRIORITY ≥ debounceMs)) :
    processStateTransition now hour hws reg s inp = ⟨s, reg, []⟩ := by
  have hs2 : EMState.EXPORT_PRIORITY ≠ s := Ne.symm hs
  rcases hgen with hg | hg <;>
    simp [processStateTransition, isBatteryProtectionActive,
      checkStateChangeDebounce, hs, hs2, hnr, hday, hg, hnp, hreg, ht]

theorem checkStateChangeDebounce_reg_eq_debounceStep
    (now : ℤ) (reg : Reg) (t c : EMState) (h : t ≠ c) :
    (checkStateChangeDebounce now reg t c).reg c t =
      debounceStep (reg c t) now := by
  unfold checkStateChangeDebounce debounceStep
  rw [if_neg h]
  by_cases h1 : reg c t = 0
  · simp [h1, setReg]
  · by_cases h2 : now - reg c t ≥ debounceMs
    · simp [h1, h2, setReg]
    · simp [h1, h2, setReg]

theorem debounceRun_foldl_mem (ts : List ℤ) :
    ∀ e : ℤ, ts.foldl debounceStep e ≠ 0 →
      ts.foldl debounceStep e = e ∨ ts.foldl debounceStep e ∈ ts := by
  induction ts with
  | nil => intro e _; exact Or.inl rfl
  | cons t ts ih =>
    intro e h
    simp only [List.foldl_cons] at h ⊢
    rcases ih (debounceStep e t) h with h1 | h1
    · have hne : debounceStep e t ≠ 0 := h1 ▸ h
      rw [h1]
      unfold debounceStep
      unfold debounceStep at hne
      split_ifs at hne ⊢ with c1 c2
      · exact Or.inr (List.mem_cons_self t ts)
      · exact absurd rfl hne
      · exact Or.inl rfl
    · exact Or.inr (List.mem_cons_of_mem t h1)

theorem mem_insertByDate (r a : DailyRecord) (l : List DailyRecord) :
    a ∈ insertByDate r l ↔ a = r ∨ a ∈ l := by
  induction l with
  | nil => simp [insertByDate]
  | cons x xs ih =>
    unfold insertByDate
    split_ifs with h
    · simp [ih]
      tauto
    · simp

theorem length_insertByDate (r : DailyRecord) (l : List DailyRecord) :
    (insertByDate r l).length = l.length + 1 := by
  induction l with
  | nil => rfl
  | cons x xs ih =>
    unfold insertByDate
    split_ifs with h
    · simp [ih]
    · simp

theorem mem_sortByDate (a : DailyRecord) (l : List DailyRecord) :
    a ∈ sortByDate l ↔ a ∈ l := by
  induction l with
  | nil => simp [sortByDate]
  | cons x xs ih =>
    unfold sortByDate
    rw [mem_insertByDate]
    simp [ih]

theorem length_sortByDate (l : List DailyRecord) :
    (sortByDate l).length = l.length := by
  induction l with
  | nil => rfl
  | cons x xs ih =>
    unfold sortByDate
    rw [length_insertByDate, ih]
    rfl

theorem absQ_eq_abs (x : ℚ) : absQ x = |x| := by
  unfold absQ
  split_ifs with h
  · exact (abs_of_neg h).symm
  · exact (abs_of_nonneg (not_lt.mp h)).symm

theorem validateInputData_ne_nil_iff (inp : Inputs) :
    validateInputData inp ≠ [] ↔
      ((inp.batterySoc < CONFIG.min_reasonable_soc ∨
        inp.batterySoc > CONFIG.max_reasonable_soc) ∨
       |inp.generation| > CONFIG.max_reasonable_power ∨
       |inp.gridPower| > CONFIG.max_reasonable_power ∨
       |inp.batteryPower| > CONFIG.max_reasonable_power ∨
       (inp.dailyExport < 0 ∨ inp.dailyExport > 200)) := by
  unfold validateInputData
  rw [absQ_eq_abs, absQ_eq_abs, absQ_eq_abs]
  split_ifs with h1 h2 h3 h4 h5 <;> simp_all

theorem mainTick_validation_eq (env : Env) (enabled : Option Bool)
    (st : Store) (raw : RawInputs)
    (hen : ¬(enabled = some false))
    (herr : validateInputData (tickInputs env st raw) ≠ []) :
    mainTick env enabled st raw =
      ⟨some (validationPayload (validateInputData (tickInputs env st raw))),
        { st with
            state := (initializeStateIfNeeded st.state).2.1
            exportHistory := (updateDailyExportHistory env.today env.isoNow
              st.exportHistory (tickInputs env st raw).dailyExport
              (tickInputs env st raw).targetExport).1
            targetCalc :=
              match (getCurrentMonthTarget env.month st.exportHistory).cacheWrite with
              | some c => some c
              | none => st.targetCalc },
        (initializeStateIfNeeded st.state).2.2 ++
          (getCurrentMonthTarget env.month st.exportHistory).logs ++
          (updateDailyExportHistory env.today env.isoNow st.exportHistory
            (tickInputs env st raw).dailyExport
            (tickInputs env st raw).targetExport).2 ++
          [⟨.ERROR, .high, "Data validation failed"⟩]⟩ := by
  unfold mainTick
  rw [if_neg hen]
  simp only [if_pos herr]

theorem generateOutput_enable_hws (now : ℤ) (hws : Bool) (lastOff : ℤ)
    (s : EMState) (inp : Inputs)
    (h : (generateOutput now hws lastOff s inp).output.actions.enable_hws =
      true) :
    (generateOutput now hws lastOff s inp).output.current_state =
      "LOAD_MANAGEMENT" := by
  cases s <;> revert h <;> simp [generateOutput, stateName] <;>
    (try split_ifs <;> simp_all)

theorem mainTick_enable_hws (env : Env) (enabled : Option Bool) (st : Store)
    (raw : RawInputs) (o : Output)
    (hpay : (mainTick env enabled st raw).payload = some o)
    (hhws : o.actions.enable_hws = true) :
    o.current_state = "LOAD_MANAGEMENT" := by
  by_cases hen : enabled = some false
  · rw [hen] at hpay
    simp [mainTick] at hpay
  · by_cases herr : validateInputData (tickInputs env st raw) = []
    · simp only [mainTick, if_neg hen] at hpay
      rw [if_neg (fun hc => hc herr)] at hpay
      obtain rfl : _ = o := Option.some.inj hpay
      exact generateOutput_enable_hws _ _ _ _ _ hhws
    · rw [mainTick_validation_eq env enabled st raw hen herr] at hpay
      obtain rfl : validationPayload _ = o := Option.some.inj hpay
      simp [validationPayload] at hhws

/-! ### Claim theorems -/

/-- C1: For every validated tick the battery-protection override fires if
and only if `battery_soc ≤ min_soc_threshold` and `battery_power < 0`
(strictly); fired from a state other than EXPORT_PRIORITY it moves the
engine to EXPORT_PRIORITY in that single tick, leaves the debounce registry
untouched (the conclusion holds for every registry, so the registry is
neither read nor written), and emits exactly the BATTERY_PROTECTION log at
priority critical; at the boundary `soc = min_soc_threshold` with
`battery_power = 0` the rule does not fire. -/
theorem C1_battery_protection_override
    (now : ℤ) (hour : ℕ) (hws : Bool) (reg : Reg) (s : EMState) (inp : Inputs)
    (hs : s ≠ EMState.EXPORT_PRIORITY)
    (hsoc : inp.batterySoc ≤ CONFIG.min_soc_threshold)
    (hpw : inp.batteryPower < 0) :
    (processStateTransition now hour hws reg s inp).nextState =
      EMState.EXPORT_PRIORITY ∧
    (processStateTransition now hour hws reg s inp).reg = reg ∧
    (processStateTransition now hour hws reg s inp).logs =
      [⟨.BATTERY_PROTECTION, .critical,
        "Battery protection override triggered"⟩] ∧
    (∀ soc pw : ℚ, ∀ b : Bool,
      isBatteryProtectionActive soc pw b = true ↔
        soc ≤ CONFIG.min_soc_threshold ∧ pw < 0) ∧
    (∀ b : Bool,
      isBatteryProtectionActive CONFIG.min_soc_threshold 0 b = false) := by
  rw [processStateTransition_batteryBranch now hour hws reg s inp hs hsoc hpw]
  refine ⟨rfl, rfl, rfl, ?_, ?_⟩
  · intro soc pw b
    simp [isBatteryProtectionActive]
  · intro b
    simp [isBatteryProtectionActive]

/-- Witness for C1 at the inputs of scenario S2 of the spec: state
BATTERY_STORAGE, soc 22, battery power −300 W. -/
theorem C1_battery_protection_override_witness :
    (EMState.BATTERY_STORAGE ≠ EMState.EXPORT_PRIORITY ∧
      (22 : ℚ) ≤ CONFIG.min_soc_threshold ∧ (-300 : ℚ) < 0) ∧
    ((processStateTransition 0 12 false (fun _ _ => 0) .BATTERY_STORAGE
        ⟨5, 23.5, 0, 400, 22, -300, 3⟩).nextState =
      EMState.EXPORT_PRIORITY ∧
    (processStateTransition 0 12 false (fun _ _ => 0) .BATTERY_STORAGE
        ⟨5, 23.5, 0, 400, 22, -300, 3⟩).reg = (fun _ _ => 0) ∧
    (processStateTransition 0 12 false (fun _ _ => 0) .BATTERY_STORAGE
        ⟨5, 23.5, 0, 400, 22, -300, 3⟩).logs =
      [⟨.BATTERY_PROTECTION, .critical,
        "Battery protection override triggered"⟩] ∧
    (∀ soc pw : ℚ, ∀ b : Bool,
      isBatteryProtectionActive soc pw b = true ↔
        soc ≤ CONFIG.min_soc_threshold ∧ pw < 0) ∧
    (∀ b : Bool,
      isBatteryProtectionActive CONFIG.min_soc_threshold 0 b = false)) :=
  ⟨⟨by decide, by decide, by decide⟩,
    C1_battery_protection_override 0 12 false (fun _ _ => 0) .BATTERY_STORAGE
      ⟨5, 23.5, 0, 400, 22, -300, 3⟩ (by decide) (by decide) (by decide)⟩

/-- C6 counterexample: a tick on which the battery-protection override
forces BATTERY_STORAGE → EXPORT_PRIORITY while a pending debounce entry
SELF_CONSUME → EXPORT_PRIORITY survives the tick unchanged — contradicting
the claim that every pending registry entry is cleared on such a forced
transition. -/
theorem C6_forced_transition_counterexample :
    (processStateTransition 600000 12 false pendingReg .BATTERY_STORAGE
      ⟨5, 23.5, 0, 400, 22, -300, 3⟩).nextState = EMState.EXPORT_PRIORITY ∧
    (processStateTransition 600000 12 false pendingReg .BATTERY_STORAGE
      ⟨5, 23.5, 0, 400, 22, -300, 3⟩).logs =
      [⟨.BATTERY_PROTECTION, .critical,
        "Battery protection override triggered"⟩] ∧
    (processStateTransition 600000 12 false pendingReg .BATTERY_STORAGE
      ⟨5, 23.5, 0, 400, 22, -300, 3⟩).reg
        .SELF_CONSUME .EXPORT_PRIORITY = 1000 ∧
    (1000 : ℤ) ≠ 0 := by decide

/-- C6 (amended): when the engine changes state via the battery-protection
override, the debounce registry is left untouched — every pending entry
survives the tick unchanged.  (Registry entries are cleared only when a
debounced transition is approved.) -/
theorem C6_battery_protection_keeps_registry
    (now : ℤ) (hour : ℕ) (hws : Bool) (reg : Reg) (s : EMState) (inp : Inputs)
    (hs : s ≠ EMState.EXPORT_PRIORITY)
    (hsoc : inp.batterySoc ≤ CONFIG.min_soc_threshold)
    (hpw : inp.batteryPower < 0) :
    (processStateTransition now hour hws reg s inp).nextState =
      EMState.EXPORT_PRIORITY ∧
    ∀ f t : EMState,
      (processStateTransition now hour hws reg s inp).reg f t = reg f t := by
  rw [processStateTransition_batteryBranch now hour hws reg s inp hs hsoc hpw]
  exact ⟨rfl, fun f t => rfl⟩

/-- Witness for the amended C6: the pending-entry registry above. -/
theorem C6_battery_protection_keeps_registry_witness :
    (EMState.BATTERY_STORAGE ≠ EMState.EXPORT_PRIORITY ∧
      (22 : ℚ) ≤ CONFIG.min_soc_threshold ∧ (-300 : ℚ) < 0) ∧
    ((processStateTransition 600000 12 false pendingReg .BATTERY_STORAGE
        ⟨5, 23.5, 0, 400, 22, -300, 3⟩).nextState =
      EMState.EXPORT_PRIORITY ∧
    ∀ f t : EMState,
      (processStateTransition 600000 12 false pendingReg .BATTERY_STORAGE
        ⟨5, 23.5, 0, 400, 22, -300, 3⟩).reg f t = pendingReg f t) :=
  ⟨⟨by decide, by decide, by decide⟩,
    C6_battery_protection_keeps_registry 600000 12 false pendingReg
      .BATTERY_STORAGE ⟨5, 23.5, 0, 400, 22, -300, 3⟩
      (by decide) (by decide) (by decide)⟩

/-- C7: on a validated tick in EXPORT_PRIORITY with
`grid_power < −significant_export_threshold` and `generation < 500` the
stale-generation rule keeps the state, emits exactly the DATA_PROTECTION
log at priority high, and returns immediately: whatever the remaining
inputs are (in particular even when the battery-protection condition also
holds), no other rule runs, no other log is emitted and the debounce
registry is untouched. -/
theorem C7_stale_generation_short_circuit
    (now : ℤ) (hour : ℕ) (hws : Bool) (reg : Reg) (inp : Inputs)
    (hgrid : inp.gridPower < -CONFIG.significant_export_threshold)
    (hgen : inp.generation < 500) :
    processStateTransition now hour hws reg .EXPORT_PRIORITY inp =
      ⟨.EXPORT_PRIORITY, reg,
        [⟨.DATA_PROTECTION, .high, "Generation data appears stale"⟩]⟩ := by
  simp [processStateTransition, hgrid, hgen]

/-- Witness for C7 at the inputs of scenario S5 of the spec (with a
battery-protective soc/power pair to exhibit the short-circuit). -/
theorem C7_stale_generation_short_circuit_witness :
    ((-3500 : ℚ) < -CONFIG.significant_export_threshold ∧
      (100 : ℚ) < 500) ∧
    processStateTransition 0 12 false (fun _ _ => 0) .EXPORT_PRIORITY
        ⟨5, 23.5, 100, -3500, 22, -300, 3⟩ =
      ⟨.EXPORT_PRIORITY, (fun _ _ => 0),
        [⟨.DATA_PROTECTION, .high, "Generation data appears stale"⟩]⟩ :=
  ⟨⟨by decide, by decide⟩,
    C7_stale_generation_short_circuit 0 12 false (fun _ _ => 0)
      ⟨5, 23.5, 100, -3500, 22, -300, 3⟩ (by decide) (by decide)⟩

/-- C2 counterexample: on a tick whose inputs fail validation (soc 200 %)
the emitted record carries `current_state = "SAFE_MODE"` together with
`inverter_mode = 3`, so the claimed SAFE_MODE ⇒ inverter-mode-4 invariant
fails on that tick's record. -/
theorem C2_safe_mode_invariant_counterexample :
    (mainTick julyEnv (some true) emptyStore invalidSocRaw).payload =
      some (validationPayload ["Battery SOC outside reasonable bounds"]) ∧
    (validationPayload
      ["Battery SOC outside reasonable bounds"]).current_state =
      "SAFE_MODE" ∧
    (validationPayload
      ["Battery SOC outside reasonable bounds"]).actions.set_ess_mode =
      false ∧
    (validationPayload
      ["Battery SOC outside reasonable bounds"]).actions.inverter_mode = 3 ∧
    ((3 : ℤ) ≠ 4) := by
  have herr : validateInputData (tickInputs julyEnv emptyStore invalidSocRaw) =
      ["Battery SOC outside reasonable bounds"] := by
    norm_num [validateInputData, tickInputs, absQ, invalidSocRaw, emptyStore,
      julyEnv, CONFIG.min_reasonable_soc, CONFIG.max_reasonable_soc,
      CONFIG.max_reasonable_power]
  refine ⟨?_, rfl, rfl, rfl, by decide⟩
  rw [mainTick_validation_eq julyEnv (some true) emptyStore invalidSocRaw
    (by simp) (by simp [herr])]
  simp [herr]

/-- C2 (amended): the SAFE_MODE invariant (`current_state = "SAFE_MODE"` ⇒
ESS off ∧ inverter mode 4) holds for every record produced by
`generateOutput`, i.e. on every validated tick, while the
validation-failure record instead carries `current_state = "SAFE_MODE"`
with ESS off, HWS off and inverter mode 3 — so the SAFE_MODE invariant
does not extend to validation-failure ticks.  The `enable_hws` invariant
does hold for every tick: every payload ever emitted by the main execution
block with `enable_hws = true` carries
`current_state = "LOAD_MANAGEMENT"`. -/
theorem C2_output_invariants :
    (∀ (now : ℤ) (hws : Bool) (lastOff : ℤ) (s : EMState) (inp : Inputs),
      ((generateOutput now hws lastOff s inp).output.current_state =
          "SAFE_MODE" →
        (generateOutput now hws lastOff s inp).output.actions.set_ess_mode =
          false ∧
        (generateOutput now hws lastOff s inp).output.actions.inverter_mode =
          4) ∧
      ((generateOutput now hws lastOff s inp).output.actions.enable_hws =
          true →
        (generateOutput now hws lastOff s inp).output.current_state =
          "LOAD_MANAGEMENT")) ∧
    (∀ errs : List String,
      (validationPayload errs).current_state = "SAFE_MODE" ∧
      (validationPayload errs).actions.set_ess_mode = false ∧
      (validationPayload errs).actions.enable_hws = false ∧
      (validationPayload errs).actions.inverter_mode = 3) ∧
    (∀ (env : Env) (enabled : Option Bool) (st : Store) (raw : RawInputs)
      (o : Output),
      (mainTick env enabled st raw).payload = some o →
      o.actions.enable_hws = true →
      o.current_state = "LOAD_MANAGEMENT") := by
  refine ⟨?_, fun errs => ⟨rfl, rfl, rfl, rfl⟩, mainTick_enable_hws⟩
  intro now hws lastOff s inp
  cases s <;> simp [generateOutput, stateName] <;>
    (try split_ifs <;> simp_all)

/-- Witness for the amended C2: the SAFE_MODE state (both SAFE_MODE
conjuncts), and a LOAD_MANAGEMENT tick that actually turns the HWS on
(battery at 99 %, 4000 W generation, cooldown long expired), exercising
the `enable_hws = true` hypothesis. -/
theorem C2_output_invariants_witness :
    (generateOutput 0 false 0 .SAFE_MODE
        ⟨0, 23.5, 0, 0, 50, 0, 3⟩).output.current_state = "SAFE_MODE" ∧
    (generateOutput 0 false 0 .SAFE_MODE
        ⟨0, 23.5, 0, 0, 50, 0, 3⟩).output.actions.set_ess_mode = false ∧
    (generateOutput 0 false 0 .SAFE_MODE
        ⟨0, 23.5, 0, 0, 50, 0, 3⟩).output.actions.inverter_mode = 4 ∧
    (generateOutput 1000000 false 0 .LOAD_MANAGEMENT
        ⟨30, 20, 4000, -2600, 99, 0, 3⟩).output.actions.enable_hws = true ∧
    (generateOutput 1000000 false 0 .LOAD_MANAGEMENT
        ⟨30, 20, 4000, -2600, 99, 0, 3⟩).output.current_state =
      "LOAD_MANAGEMENT" := by
  have hhws : (generateOutput 1000000 false 0 .LOAD_MANAGEMENT
      ⟨30, 20, 4000, -2600, 99, 0, 3⟩).output.actions.enable_hws = true := by
    have hcd : getHWSCooldownStatus 1000000 0 = true := by decide
    have hsoc : ¬((99 : ℚ) ≤
        CONFIG.max_soc_threshold - CONFIG.hws_soc_drop_threshold) := by
      norm_num [CONFIG.max_soc_threshold, CONFIG.hws_soc_drop_threshold]
    have hgen : ¬((4000 : ℚ) < CONFIG.hws_generation_drop_threshold) := by
      norm_num [CONFIG.hws_generation_drop_threshold]
    simp [generateOutput, hcd, hsoc, hgen]
  exact ⟨rfl,
    ((C2_output_invariants.1 0 false 0 .SAFE_MODE
      ⟨0, 23.5, 0, 0, 50, 0, 3⟩).1 rfl).1,
    ((C2_output_invariants.1 0 false 0 .SAFE_MODE
      ⟨0, 23.5, 0, 0, 50, 0, 3⟩).1 rfl).2,
    hhws,
    (C2_output_invariants.1 1000000 false 0 .LOAD_MANAGEMENT
      ⟨30, 20, 4000, -2600, 99, 0, 3⟩).2 hhws⟩

/-- C3 counterexample: with the master switch false the current engine
(`export_control.js`) emits no command record at all — in particular no
record with `current_state = "DISABLED"` as the claim requires. -/
theorem C3_disabled_counterexample :
    (mainTick julyEnv (some false) emptyStore nominalRaw).payload = none :=
  rfl

/-- C3 (amended): when `energy_management_enabled === false` the current
engine returns without emitting any command record and without touching any
persisted state; only the legacy variant (`part_001`) emits the DISABLED
record — with ESS off, null grid setpoint, HWS off and inverter mode 3 —
and it likewise advances nothing. -/
theorem C3_disabled_behaviour :
    (∀ (env : Env) (st : Store) (raw : RawInputs),
      mainTick env (some false) st raw = ⟨none, st, []⟩) ∧
    (∀ st : Store, legacyEnabledGate (some false) st =
      some (legacyDisabledPayload, st)) ∧
    legacyDisabledPayload.current_state = "DISABLED" ∧
    legacyDisabledPayload.actions.set_ess_mode = false ∧
    legacyDisabledPayload.actions.grid_setpoint = none ∧
    legacyDisabledPayload.actions.enable_hws = false ∧
    legacyDisabledPayload.actions.inverter_mode = 3 :=
  ⟨fun _ _ _ => rfl, fun _ => rfl, rfl, rfl, rfl, rfl, rfl⟩

/-- C4: on a tick whose inputs violate a validation bound, the engine emits
the degraded payload (ESS off, inverter mode 3 — not 4), logs an ERROR
entry at priority high, and leaves the persisted state and the debounce
registry unchanged; and the validation bounds are exactly soc outside
[−5, 105], an absolute power above 50000 W, or daily export outside
[0, 200] kWh. -/
theorem C4_validation_failure_degraded
    (env : Env) (enabled : Option Bool) (st : Store) (raw : RawInputs)
    (s0 : EMState)
    (hen : ¬(enabled = some false))
    (hstate : st.state = some (stateName s0))
    (herr : validateInputData (tickInputs env st raw) ≠ []) :
    (mainTick env enabled st raw).payload =
      some (validationPayload (validateInputData (tickInputs env st raw))) ∧
    (validationPayload
      (validateInputData (tickInputs env st raw))).actions.set_ess_mode =
      false ∧
    (validationPayload
      (validateInputData (tickInputs env st raw))).actions.inverter_mode =
      3 ∧
    ((3 : ℤ) ≠ 4) ∧
    (⟨.ERROR, .high, "Data validation failed"⟩ : LogEntry) ∈
      (mainTick env enabled st raw).logs ∧
    (mainTick env enabled st raw).store.state = st.state ∧
    (mainTick env enabled st raw).store.registry = st.registry ∧
    (∀ inp : Inputs, validateInputData inp ≠ [] ↔
      ((inp.batterySoc < CONFIG.min_reasonable_soc ∨
        inp.batterySoc > CONFIG.max_reasonable_soc) ∨
       |inp.generation| > CONFIG.max_reasonable_power ∨
       |inp.gridPower| > CONFIG.max_reasonable_power ∨
       |inp.batteryPower| > CONFIG.max_reasonable_power ∨
       (inp.dailyExport < 0 ∨ inp.dailyExport > 200))) := by
  rw [mainTick_validation_eq env enabled st raw hen herr]
  refine ⟨rfl, rfl, rfl, by decide, ?_, ?_, rfl, validateInputData_ne_nil_iff⟩
  · simp
  · rw [hstate]
    simp [initializeStateIfNeeded_valid s0]

/-- Witness for C4: the tick with soc = 200 %. -/
theorem C4_validation_failure_degraded_witness :
    (¬((some true : Option Bool) = some false) ∧
      emptyStore.state = some (stateName .EXPORT_PRIORITY) ∧
      validateInputData (tickInputs julyEnv emptyStore invalidSocRaw) ≠ []) ∧
    ((mainTick julyEnv (some true) emptyStore invalidSocRaw).payload =
      some (validationPayload
        (validateInputData (tickInputs julyEnv emptyStore invalidSocRaw))) ∧
    (mainTick julyEnv (some true) emptyStore
      invalidSocRaw).store.state = emptyStore.state) :=
  have herr : validateInputData (tickInputs julyEnv emptyStore invalidSocRaw)
      ≠ [] := by
    norm_num [validateInputData, tickInputs, absQ, invalidSocRaw, emptyStore,
      julyEnv, CONFIG.min_reasonable_soc, CONFIG.max_reasonable_soc,
      CONFIG.max_reasonable_power]
  ⟨⟨by decide, rfl, herr⟩,
    ⟨(C4_validation_failure_degraded julyEnv (some true) emptyStore
        invalidSocRaw .EXPORT_PRIORITY (by decide) rfl herr).1,
      (C4_validation_failure_degraded julyEnv (some true) emptyStore
        invalidSocRaw .EXPORT_PRIORITY (by decide) rfl herr).2.2.2.2.2.1⟩⟩

/-- C5: debounce registry semantics for a transition (F, T), F ≠ T,
requested through the registry by the under-target reset rule: with no
pending entry the current time is stored, a DEBOUNCE "request started"
entry is logged, and the state stays F; with a pending entry the transition
to T is returned exactly when `now − first_request ≥ debounceMs`, at which
point the entry is cleared, a DEBOUNCE "approved" entry is logged and every
registry entry is zero afterwards; a younger entry leaves everything
unchanged.  The registry-entry evolution equals `debounceStep`, and a
nonzero entry after any call sequence is the time of one of those calls —
so at approval at least `debounceMs` has elapsed since the stored first
request. -/
theorem C5_debounce_registry_semantics
    (now : ℤ) (hour : ℕ) (hws : Bool) (reg : Reg) (s : EMState) (inp : Inputs)
    (hs : s ≠ EMState.EXPORT_PRIORITY)
    (hnr : ¬(inp.dailyExport ≥ inp.targetExport))
    (hday : isNightTime hour = false)
    (hgen : inp.generation ≥ CONFIG.min_generation_for_export ∨
      inp.batteryPower ≥ CONFIG.strong_charging_threshold)
    (hnp : ¬(inp.batterySoc ≤ CONFIG.min_soc_threshold ∧
      inp.batteryPower < 0)) :
    (reg s .EXPORT_PRIORITY = 0 →
      (processStateTransition now hour hws reg s inp).nextState = s ∧
      (processStateTransition now hour hws reg s inp).reg
        s .EXPORT_PRIORITY = now ∧
      (∀ f t : EMState, ¬(f = s ∧ t = EMState.EXPORT_PRIORITY) →
        (processStateTransition now hour hws reg s inp).reg f t = reg f t) ∧
      (processStateTransition now hour hws reg s inp).logs =
        [⟨.DEBOUNCE, .normal, "State change request started"⟩]) ∧
    (reg s .EXPORT_PRIORITY ≠ 0 →
      now - reg s .EXPORT_PRIORITY ≥ debounceMs →
      (processStateTransition now hour hws reg s inp).nextState =
        EMState.EXPORT_PRIORITY ∧
      (∀ f t : EMState,
        (processStateTransition now hour hws reg s inp).reg f t = 0) ∧
      (processStateTransition now hour hws reg s inp).logs =
        [⟨.DEBOUNCE, .normal, "State change approved"⟩] ∧
      now ≥ reg s .EXPORT_PRIORITY + debounceMs) ∧
    (reg s .EXPORT_PRIORITY ≠ 0 →
      ¬(now - reg s .EXPORT_PRIORITY ≥ debounceMs) →
      processStateTransition now hour hws reg s inp = ⟨s, reg, []⟩) ∧
    (∀ (n : ℤ) (r : Reg) (t c : EMState), t ≠ c →
      (checkStateChangeDebounce n r t c).reg c t = debounceStep (r c t) n) ∧
    (∀ ts : List ℤ, debounceRun ts ≠ 0 → debounceRun ts ∈ ts) := by
  refine ⟨?_, ?_, ?_, checkStateChangeDebounce_reg_eq_debounceStep, ?_⟩
  · intro hreg
    rw [processStateTransition_rule3_firstRequest now hour hws reg s inp hs
      hnr hday hgen hnp hreg]
    refine ⟨rfl, by simp [setReg], ?_, rfl⟩
    intro f t hft
    simp [setReg, hft]
  · intro hreg ht
    rw [processStateTransition_rule3_approved now hour hws reg s inp hs
      hnr hday hgen hnp hreg ht]
    refine ⟨rfl, ?_, rfl, by omega⟩
    intro f t
    by_cases hft : f = s ∧ t = EMState.EXPORT_PRIORITY
    · simp [clearOtherStateChangeRequests, setReg, hft]
    · simp [clearOtherStateChangeRequests, hft]
  · intro hreg ht
    exact processStateTransition_rule3_pending now hour hws reg s inp hs
      hnr hday hgen hnp hreg ht
  · intro ts h
    rcases debounceRun_foldl_mem ts 0 h with h1 | h1
    · exact absurd h1 h
    · exact h1

/-- Witness for C5 at the inputs of scenario S3 of the spec (state
SELF_CONSUME, target not reached, daylight, solar 800 W, charging 1200 W),
empty registry. -/
theorem C5_debounce_registry_semantics_witness :
    (EMState.SELF_CONSUME ≠ EMState.EXPORT_PRIORITY ∧
      ¬((5 : ℚ) ≥ 10) ∧
      isNightTime 12 = false ∧
      ((800 : ℚ) ≥ CONFIG.min_generation_for_export ∨
        (1200 : ℚ) ≥ CONFIG.strong_charging_threshold) ∧
      ¬((55 : ℚ) ≤ CONFIG.min_soc_threshold ∧ (1200 : ℚ) < 0)) ∧
    ((fun _ _ => (0 : ℤ)) EMState.SELF_CONSUME EMState.EXPORT_PRIORITY = 0 →
      (processStateTransition 0 12 false (fun _ _ => 0) .SELF_CONSUME
        ⟨5, 10, 800, 0, 55, 1200, 3⟩).nextState = EMState.SELF_CONSUME ∧
      (processStateTransition 0 12 false (fun _ _ => 0) .SELF_CONSUME
        ⟨5, 10, 800, 0, 55, 1200, 3⟩).reg
        EMState.SELF_CONSUME EMState.EXPORT_PRIORITY = 0 ∧
      (∀ f t : EMState,
        ¬(f = EMState.SELF_CONSUME ∧ t = EMState.EXPORT_PRIORITY) →
        (processStateTransition 0 12 false (fun _ _ => 0) .SELF_CONSUME
          ⟨5, 10, 800, 0, 55, 1200, 3⟩).reg f t = (fun _ _ => (0:ℤ)) f t) ∧
      (processStateTransition 0 12 false (fun _ _ => 0) .SELF_CONSUME
        ⟨5, 10, 800, 0, 55, 1200, 3⟩).logs =
        [⟨.DEBOUNCE, .normal, "State change request started"⟩]) :=
  ⟨⟨by decide, by decide, by decide, by decide, by decide⟩,
    (C5_debounce_registry_semantics 0 12 false (fun _ _ => 0) .SELF_CONSUME
      ⟨5, 10, 800, 0, 55, 1200, 3⟩ (by decide) (by decide) (by decide)
      (by decide) (by decide)).1⟩

/-- C8: over any non-empty history the target returned by
`getCurrentMonthTarget` equals the claim's piecewise formula. -/
theorem C8_adjusted_target_formula (month : ℕ) (h : List DailyRecord)
    (hne : h ≠ []) :
    (getCurrentMonthTarget month h).target = claimAdjustedTarget month h := by
  have hl : h.length > 0 := List.length_pos.mpr hne
  simp only [getCurrentMonthTarget, claimAdjustedTarget]
  rw [if_pos hl]
  split_ifs with h1 h2
  · show min _ _ = min _ _
    norm_num [mul_comm]
  · show max _ _ = max _ _
    norm_num [mul_comm]
  · rfl

/-- Witness for C8: five July days at 24 kWh (performance within the
normal band, so the adjusted target is the static 23.5 kWh). -/
theorem C8_adjusted_target_formula_witness :
    ([⟨"2025-07-01", 24, 23, "t"⟩] : List DailyRecord) ≠ [] ∧
    (getCurrentMonthTarget 7 [⟨"2025-07-01", 24, 23, "t"⟩]).target =
      claimAdjustedTarget 7 [⟨"2025-07-01", 24, 23, "t"⟩] :=
  ⟨by simp, C8_adjusted_target_formula 7 [⟨"2025-07-01", 24, 23, "t"⟩]
    (by simp)⟩

theorem getCurrentMonthTarget_writes_cache (month : ℕ)
    (h : List DailyRecord) (hne : h ≠ []) :
    (getCurrentMonthTarget month h).cacheWrite ≠ none := by
  have hl : h.length > 0 := List.length_pos.mpr hne
  simp only [getCurrentMonthTarget]
  rw [if_pos hl]
  split_ifs <;> simp

/-- C9 counterexample: with one history entry (N = 1 < 3) the current
engine does not return the static monthly target (it returns the catch-up
target 28.2 kWh instead of 23.5 kWh) and it does write the target cache —
contradicting both halves of the claim. -/
theorem C9_small_history_counterexample :
    oneDayHist.length < 3 ∧
    (getCurrentMonthTarget 7 oneDayHist).target ≠
      (MONTHLY_EXPORT_TARGETS 7).getD 25.0 ∧
    (getCurrentMonthTarget 7 oneDayHist).cacheWrite ≠ none := by
  refine ⟨by decide, ?_, ?_⟩
  · norm_num [getCurrentMonthTarget, oneDayHist, CONFIG.catchup_days,
      MONTHLY_EXPORT_TARGETS, min_def]
  · exact getCurrentMonthTarget_writes_cache 7 oneDayHist (by simp [oneDayHist])

/-- C9 (amended): in the current engine only an empty history returns the
static monthly target without writing the cache — any non-empty history
(even N = 1 or 2) runs the adaptive path and writes the cache.  The legacy
variant behaves as the claim says: with no usable cached result and fewer
than 3 entries it returns the static target and does not write. -/
theorem C9_small_history_behaviour :
    (∀ month : ℕ,
      (getCurrentMonthTarget month []).target =
        (MONTHLY_EXPORT_TARGETS month).getD 25.0 ∧
      (getCurrentMonthTarget month []).cacheWrite = none) ∧
    (∀ (month : ℕ) (h : List DailyRecord), h ≠ [] →
      (getCurrentMonthTarget month h).cacheWrite ≠ none) ∧
    (∀ (month : ℕ) (h : List DailyRecord), h.length < 3 →
      (legacyGetCurrentMonthTarget month none h).target =
        (MONTHLY_EXPORT_TARGETS month).getD 25.0 ∧
      (legacyGetCurrentMonthTarget month none h).cacheWrite = none) := by
  refine ⟨?_, ?_, ?_⟩
  · intro month
    simp [getCurrentMonthTarget]
  · intro month h hne
    exact getCurrentMonthTarget_writes_cache month h hne
  · intro month h hlen
    have hcond : ¬(h.length > 0 ∧ min h.length 30 ≥ 3) := by
      rintro ⟨-, h3⟩
      have := min_le_left h.length 30
      omega
    simp only [legacyGetCurrentMonthTarget]
    rw [if_neg hcond]
    exact ⟨rfl, rfl⟩

/-- Witness for the amended C9: a two-day history writes the cache in the
current engine; the legacy variant skips it. -/
theorem C9_small_history_behaviour_witness :
    (([⟨"2025-07-01", 0, 23, "t"⟩] : List DailyRecord) ≠ [] ∧
      ([⟨"2025-07-01", 0, 23, "t"⟩] : List DailyRecord).length < 3) ∧
    ((getCurrentMonthTarget 7
        [⟨"2025-07-01", 0, 23, "t"⟩]).cacheWrite ≠ none ∧
      (legacyGetCurrentMonthTarget 7 none
        [⟨"2025-07-01", 0, 23, "t"⟩]).target =
        (MONTHLY_EXPORT_TARGETS 7).getD 25.0 ∧
      (legacyGetCurrentMonthTarget 7 none
        [⟨"2025-07-01", 0, 23, "t"⟩]).cacheWrite = none) :=
  ⟨⟨by simp, by decide⟩,
    ⟨C9_small_history_behaviour.2.1 7 [⟨"2025-07-01", 0, 23, "t"⟩] (by simp),
      (C9_small_history_behaviour.2.2 7 [⟨"2025-07-01", 0, 23, "t"⟩]
        (by decide)).1,
      (C9_small_history_behaviour.2.2 7 [⟨"2025-07-01", 0, 23, "t"⟩]
        (by decide)).2⟩⟩

/-- C10: on a tick whose inputs fail validation, the export history has
already been updated (the history update precedes validation in the main
execution block): if no entry exists for the local date, a record holding
the possibly out-of-range daily export value (`export_daily / 1000`) is
appended and persisted, and any later same-day update call leaves the
stored history unchanged — the invalid first observation is the day's
permanent record. -/
theorem C10_history_updated_before_validation
    (env : Env) (enabled : Option Bool) (st : Store) (raw : RawInputs)
    (hen : ¬(enabled = some false))
    (herr : validateInputData (tickInputs env st raw) ≠ [])
    (hnew : ∀ rec ∈ st.exportHistory, rec.date ≠ env.today)
    (hlen : st.exportHistory.length < 30) :
    (mainTick env enabled st raw).payload =
      some (validationPayload (validateInputData (tickInputs env st raw))) ∧
    (mainTick env enabled st raw).store.exportHistory =
      sortByDate (st.exportHistory ++
        [⟨env.today, (tickInputs env st raw).dailyExport,
          (tickInputs env st raw).targetExport, env.isoNow⟩]) ∧
    (⟨env.today, (tickInputs env st raw).dailyExport,
      (tickInputs env st raw).targetExport, env.isoNow⟩ : DailyRecord) ∈
      (mainTick env enabled st raw).store.exportHistory ∧
    (tickInputs env st raw).dailyExport = raw.export_daily / 1000 ∧
    (∀ x y : ℚ, (updateDailyExportHistory env.today env.isoNow
        (mainTick env enabled st raw).store.exportHistory x y).1 =
      (mainTick env enabled st raw).store.exportHistory) := by
  have hany : st.exportHistory.any (fun e => e.date = env.today) = false := by
    rw [List.any_eq_false]
    intro x hx
    simpa using hnew x hx
  have hupd : updateDailyExportHistory env.today env.isoNow st.exportHistory
      (tickInputs env st raw).dailyExport (tickInputs env st raw).targetExport =
      (sortByDate (st.exportHistory ++
          [⟨env.today, (tickInputs env st raw).dailyExport,
            (tickInputs env st raw).targetExport, env.isoNow⟩]),
        [⟨.SYSTEM_INFO, .low, "Export history updated"⟩]) := by
    have hzero : (sortByDate (st.exportHistory ++
        [⟨env.today, (tickInputs env st raw).dailyExport,
          (tickInputs env st raw).targetExport, env.isoNow⟩])).length - 30
        = 0 := by
      rw [length_sortByDate]
      simp only [List.length_append, List.length_cons, List.length_nil]
      omega
    simp only [updateDailyExportHistory]
    rw [if_neg (by simp [hany]), hzero, List.drop_zero]
  have hmem : (⟨env.today, (tickInputs env st raw).dailyExport,
      (tickInputs env st raw).targetExport, env.isoNow⟩ : DailyRecord) ∈
      sortByDate (st.exportHistory ++
        [⟨env.today, (tickInputs env st raw).dailyExport,
          (tickInputs env st raw).targetExport, env.isoNow⟩]) := by
    rw [mem_sortByDate]
    simp
  rw [mainTick_validation_eq env enabled st raw hen herr]
  refine ⟨rfl, ?_, ?_, rfl, ?_⟩
  · show (updateDailyExportHistory env.today env.isoNow st.exportHistory
      (tickInputs env st raw).dailyExport
      (tickInputs env st raw).targetExport).1 = _
    rw [hupd]
  · show _ ∈ (updateDailyExportHistory env.today env.isoNow st.exportHistory
      (tickInputs env st raw).dailyExport
      (tickInputs env st raw).targetExport).1
    rw [hupd]
    exact hmem
  · intro x y
    show (updateDailyExportHistory env.today env.isoNow
      (updateDailyExportHistory env.today env.isoNow st.exportHistory
        (tickInputs env st raw).dailyExport
        (tickInputs env st raw).targetExport).1 x y).1 = _
    rw [hupd]
    simp only [updateDailyExportHistory]
    rw [if_pos]
    rw [List.any_eq_true]
    exact ⟨_, hmem, by simp⟩

/-- Witness for C10: empty history, soc = 200 % (validation fails), July 2
tick. -/
theorem C10_history_updated_before_validation_witness :
    (¬((some true : Option Bool) = some false) ∧
      validateInputData (tickInputs julyEnv emptyStore invalidSocRaw) ≠ [] ∧
      (∀ rec ∈ emptyStore.exportHistory, rec.date ≠ julyEnv.today) ∧
      emptyStore.exportHistory.length < 30) ∧
    ((⟨julyEnv.today, (tickInputs julyEnv emptyStore invalidSocRaw).dailyExport,
      (tickInputs julyEnv emptyStore invalidSocRaw).targetExport,
      julyEnv.isoNow⟩ : DailyRecord) ∈
      (mainTick julyEnv (some true) emptyStore
        invalidSocRaw).store.exportHistory) :=
  have herr : validateInputData (tickInputs julyEnv emptyStore invalidSocRaw)
      ≠ [] := by
    norm_num [validateInputData, tickInputs, absQ, invalidSocRaw, emptyStore,
      julyEnv, CONFIG.min_reasonable_soc, CONFIG.max_reasonable_soc,
      CONFIG.max_reasonable_power]
  ⟨⟨by decide, herr, by simp [emptyStore], by decide⟩,
    (C10_history_updated_before_validation julyEnv (some true) emptyStore
      invalidSocRaw (by decide) herr (by simp [emptyStore])
      (by decide)).2.2.1⟩

end SolarExport

